import Mathlib

/-
Shallow embedding of src/components/sup/src/manager/service/hooks.rs
(habitat supervisor lifecycle-hook layer).

Modelling conventions:
- Rust `i32` exit codes become `Int` (the code only matches and stores them,
  no arithmetic, so no wrap-around is observable).
- Rust `u64` incarnation counters become `Nat` (the code only compares and
  assigns them).
- `std::process::ExitStatus` is modelled by its observable `code()` value,
  an `Option Int`; `success()` holds exactly when `code() == Some(0)`.
- Fallible external operations (toml serialisation, template render, file
  create/write, chown/chmod, spawn, wait, reading a line from a stream) are
  modelled by explicit environments recording whether each operation
  succeeds, and filesystem side effects are recorded as an event trace.
-/

/-- Exit outcome of the health_check hook (`health::HealthCheck`). -/
inductive HealthCheck where
  | Ok
  | Warning
  | Critical
  | Unknown
deriving DecidableEq

/-- Modelled from the spec: `health::HealthCheck::default()` lives in the
health module, which is not under src/. The spec fixes it: "any other
present code→Unknown ... absent code→Unknown", so the default is `Unknown`. -/
def HealthCheck.default : HealthCheck := HealthCheck.Unknown

/-- Exit outcome of the smoke_test hook (`health::SmokeCheck`). -/
inductive SmokeCheck where
  | Ok
  | Failed (code : Int)
deriving DecidableEq

/-- Modelled from the spec: `health::SmokeCheck::default()` lives in the
health module, which is not under src/. The spec fixes the kind's
sentinel/default outcome to `Failed(-1)` ("absent code→Failed(−1)",
"sentinel outcome: the fixed indeterminate value returned when a process
could not be spawned, waited on, or did not report an exit code"). -/
def SmokeCheck.default : SmokeCheck := SmokeCheck.Failed (-1)

/-- `impl Default for ExitCode` (hooks.rs lines 40-44): `ExitCode(-1)`.
The newtype wrapper is dropped; the outcome is the wrapped `i32`. -/
def ExitCode.default : Int := -1

/-- `std::process::ExitStatus`, observable through `code()`. -/
structure ExitStatus where
  code : Option Int
deriving DecidableEq

/-- `ExitStatus::success()`: the process terminated normally with code 0.
A signal-killed process has `code() = none` and is not a success. -/
def ExitStatus.success (s : ExitStatus) : Bool := s.code == some 0

/-- `FileUpdatedHook::handle_exit` (hooks.rs lines 142-144): `status.success()`. -/
def FileUpdatedHook.handle_exit (status : ExitStatus) : Bool :=
  status.success

/-- `HealthCheckHook::handle_exit` (hooks.rs lines 173-190). -/
def HealthCheckHook.handle_exit (status : ExitStatus) : HealthCheck :=
  match status.code with
  | some 0 => HealthCheck.Ok
  | some 1 => HealthCheck.Warning
  | some 2 => HealthCheck.Critical
  | some 3 => HealthCheck.Unknown
  | some _ => HealthCheck.default
  | none => HealthCheck.default

/-- `InitHook::handle_exit` (hooks.rs lines 219-228). -/
def InitHook.handle_exit (status : ExitStatus) : Int :=
  match status.code with
  | some code => code
  | none => ExitCode.default

/-- `ReconfigureHook::handle_exit` (hooks.rs lines 257-266). -/
def ReconfigureHook.handle_exit (status : ExitStatus) : Int :=
  match status.code with
  | some code => code
  | none => ExitCode.default

/-- `RunHook::handle_exit` (hooks.rs lines 295-304). -/
def RunHook.handle_exit (status : ExitStatus) : Int :=
  match status.code with
  | some code => code
  | none => ExitCode.default

/-- `SmokeTestHook::handle_exit` (hooks.rs lines 333-343). -/
def SmokeTestHook.handle_exit (status : ExitStatus) : SmokeCheck :=
  match status.code with
  | some 0 => SmokeCheck.Ok
  | some code => SmokeCheck.Failed code
  | none => SmokeCheck.Failed (-1)

/-
Stream draining (hooks.rs lines 461-481).

A stream is the list of results that `BufReader::lines` yields for it:
`Except.ok l` is a line read and decoded successfully, `Except.error ()`
a line whose read or UTF-8 decoding failed.  `stream_output` forwards
lines to the log sink (modelled as the list of forwarded lines, in
emission order; each is emitted under the preamble from
`stream_preamble`).
-/

/-- `Result::ok()` applied to one yielded line: an unreadable/undecodable
line becomes `none` and is skipped by the `if let Some(ref l)` guard. -/
def lineOk : Except Unit String → Option String
  | Except.ok l => some l
  | Except.error _ => none

/-- One `for line in BufReader::new(stream).lines()` loop of `stream_output`
(hooks.rs lines 464-468 and 471-475): appends each successfully read line
to the already-emitted log, skipping failed reads. -/
def drainStream : List (Except Unit String) → List String → List String
  | [], log => log
  | line :: rest, log =>
    match lineOk line with
    | some l => drainStream rest (log ++ [l])
    | none => drainStream rest log

/-- `stream_output` (hooks.rs lines 461-477): drains the stdout stream to
end-of-stream first, and only then drains the stderr stream. -/
def stream_output (stdoutLines stderrLines : List (Except Unit String)) :
    List String :=
  drainStream stderrLines (drainStream stdoutLines [])

/-- `stream_preamble` (hooks.rs lines 479-481). -/
def stream_preamble (service_group : String) (file_name : String) : String :=
  service_group ++ " hook[" ++ file_name ++ "]:"

/-
Process running (hooks.rs lines 96-115).

The external process-creation utility is modelled by a `SpawnEnv`:
whether `spawn()` succeeds, the two captured streams of the child, and
the result of `wait()` (`none` models a wait error, `some status` a
reaped exit status).
-/

/-- Environment for one `Hook::run` call. -/
structure SpawnEnv where
  spawnOk : Bool
  stdoutLines : List (Except Unit String)
  stderrLines : List (Except Unit String)
  waitResult : Option ExitStatus

/-- `Hook::run` (hooks.rs lines 96-115), generic over the hook kind's
`ExitValue` default and `handle_exit`.  Returns the exit value together
with the lines forwarded to the log sink by `stream_output`. -/
def Hook.run {α : Type} (dfault : α) (handle_exit : ExitStatus → α)
    (env : SpawnEnv) : α × List String :=
  match env.spawnOk with
  | false => (dfault, [])
  | true =>
    let log := stream_output env.stdoutLines env.stderrLines
    match env.waitResult with
    | some status => (handle_exit status, log)
    | none => (dfault, log)

/-- `run` for `FileUpdatedHook`: `ExitValue = bool`, whose Rust `Default`
is `false`. -/
def FileUpdatedHook.run (env : SpawnEnv) : Bool × List String :=
  Hook.run false FileUpdatedHook.handle_exit env

/-- `run` for `HealthCheckHook`: `ExitValue = health::HealthCheck`. -/
def HealthCheckHook.run (env : SpawnEnv) : HealthCheck × List String :=
  Hook.run HealthCheck.default HealthCheckHook.handle_exit env

/-- `run` for `InitHook`: `ExitValue = ExitCode`. -/
def InitHook.run (env : SpawnEnv) : Int × List String :=
  Hook.run ExitCode.default InitHook.handle_exit env

/-- `run` for `ReconfigureHook`: `ExitValue = ExitCode`. -/
def ReconfigureHook.run (env : SpawnEnv) : Int × List String :=
  Hook.run ExitCode.default ReconfigureHook.handle_exit env

/-- `run` for `RunHook`: `ExitValue = ExitCode`. -/
def RunHook.run (env : SpawnEnv) : Int × List String :=
  Hook.run ExitCode.default RunHook.handle_exit env

/-- `run` for `SmokeTestHook`: `ExitValue = health::SmokeCheck`. -/
def SmokeTestHook.run (env : SpawnEnv) : SmokeCheck × List String :=
  Hook.run SmokeCheck.default SmokeTestHook.handle_exit env

/-
Hook compilation (hooks.rs lines 81-93) and the hook table
(hooks.rs lines 354-426).
-/

/-- `RenderPair` (hooks.rs lines 428-445): destination path plus compiled
template.  The template itself is opaque to every claim, so only the
path is carried. -/
structure RenderPair where
  path : String
deriving DecidableEq

/-- A filesystem side effect performed by `Hook::compile`:
`File::create` (creating the file and truncating prior content),
`write_all`, `set_owner`, `set_permissions`. -/
inductive FsEvent where
  | create (path : String)
  | write (path : String)
  | chown (path : String)
  | chmod (path : String)
deriving DecidableEq

/-- Environment for one `Hook::compile` call: whether each fallible step
succeeds, in source order: `cfg.to_toml()`, `template.render`,
`File::create`, `write_all`, `set_owner`, `set_permissions`. -/
structure CompileEnv where
  tomlOk : Bool
  renderOk : Bool
  createOk : Bool
  writeOk : Bool
  chownOk : Bool
  chmodOk : Bool
deriving DecidableEq

/-- `Hook::compile` (hooks.rs lines 81-93): the `try!` chain, linearised.
Returns whether compilation succeeded together with the filesystem
events that actually occurred before the first failure (a failing step
performs no event: a failed `File::create` leaves the file untouched,
and `write_all`/`set_owner`/`set_permissions` events are recorded once
the step succeeds). -/
def Hook.compile (pair : RenderPair) (env : CompileEnv) :
    Bool × List FsEvent :=
  if env.tomlOk = false then (false, [])
  else if env.renderOk = false then (false, [])
  else if env.createOk = false then (false, [])
  else if env.writeOk = false then (false, [FsEvent.create pair.path])
  else if env.chownOk = false then
    (false, [FsEvent.create pair.path, FsEvent.write pair.path])
  else if env.chmodOk = false then
    (false, [FsEvent.create pair.path, FsEvent.write pair.path,
             FsEvent.chown pair.path])
  else (true, [FsEvent.create pair.path, FsEvent.write pair.path,
               FsEvent.chown pair.path, FsEvent.chmod pair.path])

/-- The six hook kinds of the closed taxonomy. -/
inductive HookKind where
  | fileUpdated
  | healthCheck
  | init
  | reconfigure
  | run
  | smokeTest
deriving DecidableEq

/-- `Hook::file_name()` for each kind. -/
def file_name : HookKind → String
  | HookKind.fileUpdated => "file_updated"
  | HookKind.healthCheck => "health_check"
  | HookKind.init => "init"
  | HookKind.reconfigure => "reconfigure"
  | HookKind.run => "run"
  | HookKind.smokeTest => "smoke_test"

/-- `HookTable` (hooks.rs lines 354-363): one optional hook per kind plus
the private `cfg_incarnation` marker (`u64`, modelled as `Nat`). -/
structure HookTable where
  health_check : Option RenderPair
  init : Option RenderPair
  file_updated : Option RenderPair
  reconfigure : Option RenderPair
  run : Option RenderPair
  smoke_test : Option RenderPair
  cfg_incarnation : Nat
deriving DecidableEq

/-- `HookTable::default()` (derived `Default`, hooks.rs line 354): every
hook absent, `cfg_incarnation = 0`. -/
def HookTable.default : HookTable :=
  { health_check := none, init := none, file_updated := none,
    reconfigure := none, run := none, smoke_test := none,
    cfg_incarnation := 0 }

/-- Field access of the table by kind. -/
def HookTable.hookAt (t : HookTable) : HookKind → Option RenderPair
  | HookKind.fileUpdated => t.file_updated
  | HookKind.healthCheck => t.health_check
  | HookKind.init => t.init
  | HookKind.reconfigure => t.reconfigure
  | HookKind.run => t.run
  | HookKind.smokeTest => t.smoke_test

/-- `HookTable::compile_one` (hooks.rs lines 418-425): runs `hook.compile`
and swallows any error (`unwrap_or_else` logs it); the table sees only
the filesystem events. -/
def HookTable.compile_one (pair : RenderPair) (env : CompileEnv) :
    List FsEvent :=
  (Hook.compile pair env).2

/-- One `if let Some(ref hook) = ... { self.compile_one(...) }` block of
`HookTable::compile`: the events contributed by one (possibly absent)
hook. -/
def compileEvents (hook : Option RenderPair) (env : CompileEnv) :
    List FsEvent :=
  match hook with
  | some pair => HookTable.compile_one pair env
  | none => []

/-- `HookTable::compile` (hooks.rs lines 367-394).  `env` gives, per hook
kind, the outcome of that hook's fallible compile steps.  Returns the
updated table and the filesystem events of the whole pass, in source
order: file_updated, health_check, init, reconfigure, run, smoke_test. -/
def HookTable.compile (t : HookTable) (incarnation : Nat)
    (env : HookKind → CompileEnv) : HookTable × List FsEvent :=
  if t.cfg_incarnation ≠ 0 ∧ incarnation ≤ t.cfg_incarnation then
    (t, [])
  else
    ({ t with cfg_incarnation := incarnation },
     compileEvents t.file_updated (env HookKind.fileUpdated) ++
     compileEvents t.health_check (env HookKind.healthCheck) ++
     compileEvents t.init (env HookKind.init) ++
     compileEvents t.reconfigure (env HookKind.reconfigure) ++
     compileEvents t.run (env HookKind.run) ++
     compileEvents t.smoke_test (env HookKind.smokeTest))

/-
Discovery (hooks.rs lines 51-74 and 397-416).

The filesystem seen by discovery is modelled by `DiscoveryFs`:
`templatesMeta` is the result of `fs::metadata` on the template
directory (`none` = the call failed, `some b` = it succeeded and
`is_dir()` returned `b`); `templateExists k` is whether `fs::metadata`
succeeds on the kind's template file; `bindOk k` is whether
`RenderPair::new` (template registration) succeeds for the kind.
-/

/-- Filesystem/collaborator environment for one discovery pass. -/
structure DiscoveryFs where
  templatesMeta : Option Bool
  templateExists : HookKind → Bool
  bindOk : HookKind → Bool

/-- `Hook::load` (hooks.rs lines 51-74) for kind `k`: `Some` hook exactly
when the kind's template file exists and `Self::new` succeeds; a bind
failure is logged and yields `None`. -/
def Hook.load (k : HookKind) (fs : DiscoveryFs) (hooksDir : String) :
    Option RenderPair :=
  if fs.templateExists k then
    if fs.bindOk k then some ⟨hooksDir ++ "/" ++ file_name k⟩ else none
  else none

/-- `HookTable::load_hooks` (hooks.rs lines 397-416): when the template
directory's metadata is readable and it is a directory, load all six
kinds; otherwise return the table unchanged. -/
def HookTable.load_hooks (t : HookTable) (fs : DiscoveryFs)
    (hooksDir : String) : HookTable :=
  match fs.templatesMeta with
  | some true =>
    { t with
      file_updated := Hook.load HookKind.fileUpdated fs hooksDir,
      health_check := Hook.load HookKind.healthCheck fs hooksDir,
      init := Hook.load HookKind.init fs hooksDir,
      reconfigure := Hook.load HookKind.reconfigure fs hooksDir,
      run := Hook.load HookKind.run fs hooksDir,
      smoke_test := Hook.load HookKind.smokeTest fs hooksDir }
  | _ => t

/-
Concrete fixtures for witnesses and counterexamples.
-/

/-- A compile environment in which every step succeeds. -/
def envAllOk : CompileEnv :=
  { tomlOk := true, renderOk := true, createOk := true,
    writeOk := true, chownOk := true, chmodOk := true }

/-- A compile environment in which every step fails (already the first). -/
def envNoneOk : CompileEnv :=
  { tomlOk := false, renderOk := false, createOk := false,
    writeOk := false, chownOk := false, chmodOk := false }

/-- A compile environment where toml serialisation and template rendering
succeed but `File::create` fails. -/
def envCreateFail : CompileEnv :=
  { tomlOk := true, renderOk := true, createOk := false,
    writeOk := true, chownOk := true, chmodOk := true }

/-- Per-kind environment: every hook's every step succeeds. -/
def envAll : HookKind → CompileEnv := fun _ => envAllOk

/-- Per-kind environment: the init hook fails at every step, the others
succeed. -/
def envInitFails : HookKind → CompileEnv := fun k =>
  match k with
  | HookKind.init => envNoneOk
  | _ => envAllOk

/-- Destination render pair of a run hook. -/
def pairRun : RenderPair := { path := "svc/hooks/run" }

/-- Destination render pair of an init hook. -/
def pairInit : RenderPair := { path := "svc/hooks/init" }

/-- A table holding only a run hook, never compiled. -/
def tRunOnly : HookTable :=
  { HookTable.default with run := some pairRun }

/-- A table holding only a run hook, last compiled at incarnation 5. -/
def tRunAt5 : HookTable :=
  { HookTable.default with run := some pairRun, cfg_incarnation := 5 }

/-- A table holding an init hook and a run hook, never compiled. -/
def tInitRun : HookTable :=
  { HookTable.default with init := some pairInit, run := some pairRun }

/-- Discovery filesystem where the template directory's metadata call
fails (directory missing). -/
def fsNoDir : DiscoveryFs :=
  { templatesMeta := none, templateExists := fun _ => true,
    bindOk := fun _ => true }

/-- Discovery filesystem: the template directory exists; templates exist
only for health_check and init; binding succeeds for health_check and
fails for init. -/
def fsMixed : DiscoveryFs :=
  { templatesMeta := some true,
    templateExists := fun k =>
      match k with
      | HookKind.healthCheck => true
      | HookKind.init => true
      | _ => false,
    bindOk := fun k =>
      match k with
      | HookKind.init => false
      | _ => true }

/-- A run environment where spawning the child fails; the child's
would-be output is nonempty, to show that nothing gets drained. -/
def envSpawnFail : SpawnEnv :=
  { spawnOk := false, stdoutLines := [Except.ok "x"],
    stderrLines := [Except.ok "y"], waitResult := some { code := some 0 } }

/-- A run environment where spawning succeeds but `wait()` fails. -/
def envWaitFail : SpawnEnv :=
  { spawnOk := true, stdoutLines := [Except.ok "a"],
    stderrLines := [], waitResult := none }


/-
Helper lemmas.
-/

/-- Draining one stream forwards exactly its successfully read lines, in
stream order, appended after anything already logged. -/
theorem drainStream_eq (lines : List (Except Unit String))
    (log : List String) :
    drainStream lines log = log ++ lines.filterMap lineOk := by
  induction lines generalizing log with
  | nil => simp [drainStream]
  | cons line rest ih =>
    cases line with
    | ok l => simp [drainStream, lineOk, ih]
    | error e => simp [drainStream, lineOk, ih]

/-- `stream_output` forwards the ok lines of stdout, then those of
stderr. -/
theorem stream_output_eq (stdoutLines stderrLines : List (Except Unit String)) :
    stream_output stdoutLines stderrLines
      = stdoutLines.filterMap lineOk ++ stderrLines.filterMap lineOk := by
  simp [stream_output, drainStream_eq]

/-- If some element of a list is dropped by `filterMap`, the result is
strictly shorter than the list. -/
theorem length_filterMap_lt {α β : Type} (f : α → Option β) (l : List α)
    (a : α) (ha : a ∈ l) (hfa : f a = none) :
    (l.filterMap f).length < l.length := by
  induction l with
  | nil => cases ha
  | cons b t ih =>
    rcases List.mem_cons.mp ha with h | hmem
    · subst h
      rw [List.filterMap_cons_none hfa]
      exact Nat.lt_succ_of_le (List.length_filterMap_le f t)
    · cases hfb : f b with
      | none =>
        rw [List.filterMap_cons_none hfb]
        exact Nat.lt_succ_of_le (Nat.le_of_lt (ih hmem))
      | some c =>
        rw [List.filterMap_cons_some hfb]
        simpa using ih hmem

/-
Claim theorems.
-/

/-- Claim C5 (confirmed): the HealthCheck outcome decoder maps exit code 0
to Ok, 1 to Warning, 2 to Critical, 3 to Unknown, any other present code
to Unknown, and an absent exit code to Unknown. -/
theorem C5_health_check_mapping (c : Int) :
    HealthCheckHook.handle_exit { code := some 0 } = HealthCheck.Ok ∧
    HealthCheckHook.handle_exit { code := some 1 } = HealthCheck.Warning ∧
    HealthCheckHook.handle_exit { code := some 2 } = HealthCheck.Critical ∧
    HealthCheckHook.handle_exit { code := some 3 } = HealthCheck.Unknown ∧
    (c ≠ 0 → c ≠ 1 → c ≠ 2 → c ≠ 3 →
      HealthCheckHook.handle_exit { code := some c } = HealthCheck.Unknown) ∧
    HealthCheckHook.handle_exit { code := none } = HealthCheck.Unknown := by
  refine ⟨rfl, rfl, rfl, rfl, ?_, rfl⟩
  intro h0 h1 h2 h3
  unfold HealthCheckHook.handle_exit
  split <;> simp_all [HealthCheck.default]

/-- Witness for C5 at the concrete unrecognized code 7. -/
theorem C5_health_check_mapping_witness :
    (7 : Int) ≠ 0 ∧
    HealthCheckHook.handle_exit { code := some 7 } = HealthCheck.Unknown :=
  ⟨by decide,
   (C5_health_check_mapping 7).2.2.2.2.1 (by decide) (by decide) (by decide)
     (by decide)⟩

/-- Claim C6 (confirmed): the SmokeTest outcome decoder maps exit code 0
to Ok, any other present code N to Failed(N), and an absent exit code to
Failed(-1). -/
theorem C6_smoke_test_mapping (c : Int) :
    SmokeTestHook.handle_exit { code := some 0 } = SmokeCheck.Ok ∧
    (c ≠ 0 → SmokeTestHook.handle_exit { code := some c } = SmokeCheck.Failed c) ∧
    SmokeTestHook.handle_exit { code := none } = SmokeCheck.Failed (-1) := by
  refine ⟨rfl, ?_, rfl⟩
  intro h0
  unfold SmokeTestHook.handle_exit
  split <;> simp_all

/-- Witness for C6 at the concrete failing code 5. -/
theorem C6_smoke_test_mapping_witness :
    (5 : Int) ≠ 0 ∧
    SmokeTestHook.handle_exit { code := some 5 } = SmokeCheck.Failed 5 :=
  ⟨by decide, (C6_smoke_test_mapping 5).2.1 (by decide)⟩

/-- Claim C7 (confirmed): the Init, Run and Reconfigure decoders map a
present exit code N to the integer N and an absent code to -1; the
FileUpdated decoder is true exactly when the process terminated with
code 0. -/
theorem C7_init_run_reconfigure_file_updated (c : Int) (s : ExitStatus) :
    InitHook.handle_exit { code := some c } = c ∧
    InitHook.handle_exit { code := none } = -1 ∧
    RunHook.handle_exit { code := some c } = c ∧
    RunHook.handle_exit { code := none } = -1 ∧
    ReconfigureHook.handle_exit { code := some c } = c ∧
    ReconfigureHook.handle_exit { code := none } = -1 ∧
    (FileUpdatedHook.handle_exit s = true ↔ s.code = some 0) := by
  refine ⟨rfl, rfl, rfl, rfl, rfl, rfl, ?_⟩
  simp [FileUpdatedHook.handle_exit, ExitStatus.success]

/-- Claim C4 (confirmed): for every hook kind, a spawn failure makes `run`
return the kind's sentinel/default outcome immediately, with no stream
lines forwarded (and no wait consulted); a wait failure likewise makes
`run` return the sentinel/default outcome.  `run` is total, so no error
propagates past its boundary. -/
theorem C4_spawn_wait_failure (env : SpawnEnv) :
    (env.spawnOk = false →
      FileUpdatedHook.run env = (false, []) ∧
      HealthCheckHook.run env = (HealthCheck.Unknown, []) ∧
      InitHook.run env = (-1, []) ∧
      ReconfigureHook.run env = (-1, []) ∧
      RunHook.run env = (-1, []) ∧
      SmokeTestHook.run env = (SmokeCheck.Failed (-1), [])) ∧
    (env.waitResult = none →
      (FileUpdatedHook.run env).1 = false ∧
      (HealthCheckHook.run env).1 = HealthCheck.Unknown ∧
      (InitHook.run env).1 = -1 ∧
      (ReconfigureHook.run env).1 = -1 ∧
      (RunHook.run env).1 = -1 ∧
      (SmokeTestHook.run env).1 = SmokeCheck.Failed (-1)) := by
  constructor
  · intro h
    simp [FileUpdatedHook.run, HealthCheckHook.run, InitHook.run,
          ReconfigureHook.run, RunHook.run, SmokeTestHook.run, Hook.run, h,
          HealthCheck.default, ExitCode.default, SmokeCheck.default]
  · intro h
    cases hsp : env.spawnOk <;>
      simp [FileUpdatedHook.run, HealthCheckHook.run, InitHook.run,
            ReconfigureHook.run, RunHook.run, SmokeTestHook.run, Hook.run,
            hsp, h, HealthCheck.default, ExitCode.default, SmokeCheck.default]

/-- Witness for C4: a concrete spawn failure and a concrete wait failure. -/
theorem C4_spawn_wait_failure_witness :
    (RunHook.run envSpawnFail = (-1, []) ∧
     SmokeTestHook.run envSpawnFail = (SmokeCheck.Failed (-1), [])) ∧
    ((HealthCheckHook.run envWaitFail).1 = HealthCheck.Unknown ∧
     (FileUpdatedHook.run envWaitFail).1 = false) :=
  ⟨⟨((C4_spawn_wait_failure envSpawnFail).1 (by decide)).2.2.2.2.1,
    ((C4_spawn_wait_failure envSpawnFail).1 (by decide)).2.2.2.2.2⟩,
   ⟨((C4_spawn_wait_failure envWaitFail).2 (by decide)).2.1,
    ((C4_spawn_wait_failure envWaitFail).2 (by decide)).1⟩⟩

/-- Claim C2 (code_bug): the spec requires the two output streams to be
drained concurrently, but `stream_output` drains stdout to end-of-stream
and only afterwards reads stderr: its forwarded output is always the
stdout drain followed by the stderr drain, with no interleaving — a
strictly sequential drain (with real pipes, a child filling the stderr
buffer while stdout is still open deadlocks).  Per-stream line order is
preserved, as the claim states. -/
theorem C2_sequential_stream_drain
    (stdoutLines stderrLines : List (Except Unit String)) :
    stream_output stdoutLines stderrLines
      = stream_output stdoutLines [] ++ stream_output [] stderrLines := by
  simp [stream_output_eq]

/-- Claim C9 (confirmed): lines that cannot be read or decoded are
silently skipped by `stream_output` — every forwarded line is a
successfully read line of one of the streams, the forwarded count never
exceeds the number of lines written, and the presence of an unreadable
stdout line makes the forwarded count strictly smaller. -/
theorem C9_unreadable_lines_skipped
    (stdoutLines stderrLines : List (Except Unit String)) :
    (∀ l, l ∈ stream_output stdoutLines stderrLines →
      Except.ok l ∈ stdoutLines ∨ Except.ok l ∈ stderrLines) ∧
    (stream_output stdoutLines stderrLines).length
      ≤ stdoutLines.length + stderrLines.length ∧
    (Except.error () ∈ stdoutLines →
      (stream_output stdoutLines stderrLines).length
        < stdoutLines.length + stderrLines.length) := by
  refine ⟨?_, ?_, ?_⟩
  · intro l hl
    rw [stream_output_eq] at hl
    rcases List.mem_append.mp hl with h | h
    · left
      rcases List.mem_filterMap.mp h with ⟨a, ha, hfa⟩
      cases a with
      | ok s => simp [lineOk] at hfa; subst hfa; exact ha
      | error e => simp [lineOk] at hfa
    · right
      rcases List.mem_filterMap.mp h with ⟨a, ha, hfa⟩
      cases a with
      | ok s => simp [lineOk] at hfa; subst hfa; exact ha
      | error e => simp [lineOk] at hfa
  · rw [stream_output_eq]
    simp only [List.length_append]
    exact Nat.add_le_add (List.length_filterMap_le lineOk stdoutLines)
      (List.length_filterMap_le lineOk stderrLines)
  · intro herr
    rw [stream_output_eq]
    simp only [List.length_append]
    exact Nat.add_lt_add_of_lt_of_le
      (length_filterMap_lt lineOk stdoutLines (Except.error ()) herr rfl)
      (List.length_filterMap_le lineOk stderrLines)

/-- Witness for C9: a concrete stream with an undecodable line; only two
of the three written lines are forwarded. -/
theorem C9_unreadable_lines_skipped_witness :
    Except.error () ∈ ([Except.ok "a", Except.error (), Except.ok "b"] :
      List (Except Unit String)) ∧
    (stream_output [Except.ok "a", Except.error (), Except.ok "b"]
      [Except.ok "c"]).length < 3 + 1 :=
  ⟨by simp,
   (C9_unreadable_lines_skipped
      [Except.ok "a", Except.error (), Except.ok "b"]
      [Except.ok "c"]).2.2 (by simp)⟩

/-- Counterexample to claim C1 as stated: at configuration incarnation 0
the guard `cfg_incarnation != 0 && incarnation <= cfg_incarnation` never
fires, so calling `compile` twice with the same incarnation 0 performs
filesystem writes on BOTH calls — the second call is not skipped even
though its incarnation is ≤ `last_compiled_incarnation`. -/
theorem C1_counterexample :
    (tRunOnly.compile 0 envAll).2 ≠ [] ∧
    ((tRunOnly.compile 0 envAll).1.compile 0 envAll).2 ≠ [] := by
  decide

/-- Claim C1 (corrected): a compile call is skipped (table unchanged, no
filesystem writes) exactly under the source guard
`last_compiled_incarnation ≠ 0 ∧ incarnation ≤ last_compiled_incarnation`;
when not skipped the marker becomes the configuration's incarnation; and
for any incarnation ≥ 1 a second compile at the same incarnation is a
complete no-op (no writes, marker unchanged).  At incarnation 0 the
idempotence clause of the original claim fails (see the
counterexample). -/
theorem C1_compile_incarnation_guard (t : HookTable) (inc : Nat)
    (env env2 : HookKind → CompileEnv) :
    (t.cfg_incarnation ≠ 0 ∧ inc ≤ t.cfg_incarnation →
      t.compile inc env = (t, [])) ∧
    (¬(t.cfg_incarnation ≠ 0 ∧ inc ≤ t.cfg_incarnation) →
      (t.compile inc env).1.cfg_incarnation = inc) ∧
    (1 ≤ inc →
      (t.compile inc env).1.compile inc env2 = ((t.compile inc env).1, [])) := by
  refine ⟨?_, ?_, ?_⟩
  · intro h
    unfold HookTable.compile
    rw [if_pos h]
  · intro h
    unfold HookTable.compile
    rw [if_neg h]
  · intro hinc
    by_cases hs : t.cfg_incarnation ≠ 0 ∧ inc ≤ t.cfg_incarnation
    · have e1 : t.compile inc env = (t, []) := by
        unfold HookTable.compile
        rw [if_pos hs]
      rw [e1]
      unfold HookTable.compile
      rw [if_pos hs]
    · have e1 : (t.compile inc env).1 = { t with cfg_incarnation := inc } := by
        unfold HookTable.compile
        rw [if_neg hs]
      rw [e1]
      unfold HookTable.compile
      rw [if_pos ⟨Nat.one_le_iff_ne_zero.mp hinc, Nat.le_refl inc⟩]

/-- Witness for C1: the skip branch at marker 5 / incarnation 2, the
marker update at incarnation 1, and idempotence of a second compile at
incarnation 1. -/
theorem C1_compile_incarnation_guard_witness :
    tRunAt5.compile 2 envAll = (tRunAt5, []) ∧
    (tRunOnly.compile 1 envAll).1.cfg_incarnation = 1 ∧
    (tRunOnly.compile 1 envAll).1.compile 1 envAll
      = ((tRunOnly.compile 1 envAll).1, []) :=
  ⟨(C1_compile_incarnation_guard tRunAt5 2 envAll envAll).1 (by decide),
   (C1_compile_incarnation_guard tRunOnly 1 envAll envAll).2.1 (by decide),
   (C1_compile_incarnation_guard tRunOnly 1 envAll envAll).2.2 (by decide)⟩

/-- Claim C3 (confirmed): in a non-skipped compile pass the incarnation
marker is set to the configuration's incarnation for EVERY per-hook
environment — that is, no matter which individual render/write/chown/chmod
steps fail — and every present hook is compiled independently: its own
compile events appear contiguously in the pass's event trace, whatever
happens to the other hooks, so one hook's failure never aborts the table
nor prevents the marker from advancing. -/
theorem C3_compile_pass_independence (t : HookTable) (inc : Nat)
    (env : HookKind → CompileEnv)
    (h : ¬(t.cfg_incarnation ≠ 0 ∧ inc ≤ t.cfg_incarnation)) :
    (t.compile inc env).1.cfg_incarnation = inc ∧
    ∀ k p, t.hookAt k = some p →
      HookTable.compile_one p (env k) <:+: (t.compile inc env).2 := by
  have htrace : (t.compile inc env).2 =
      compileEvents t.file_updated (env HookKind.fileUpdated) ++
      compileEvents t.health_check (env HookKind.healthCheck) ++
      compileEvents t.init (env HookKind.init) ++
      compileEvents t.reconfigure (env HookKind.reconfigure) ++
      compileEvents t.run (env HookKind.run) ++
      compileEvents t.smoke_test (env HookKind.smokeTest) := by
    unfold HookTable.compile
    rw [if_neg h]
  constructor
  · unfold HookTable.compile
    rw [if_neg h]
  · intro k p hp
    rw [htrace]
    cases k with
    | fileUpdated =>
      simp only [HookTable.hookAt] at hp
      rw [hp]
      simp only [compileEvents, List.append_assoc]
      exact List.IsPrefix.isInfix (List.prefix_append _ _)
    | healthCheck =>
      simp only [HookTable.hookAt] at hp
      rw [hp]
      simp [compileEvents, List.append_assoc]
    | init =>
      simp only [HookTable.hookAt] at hp
      rw [hp]
      simpa [compileEvents, List.append_assoc] using
        List.infix_append
          (compileEvents t.file_updated (env HookKind.fileUpdated) ++
           compileEvents t.health_check (env HookKind.healthCheck))
          (HookTable.compile_one p (env HookKind.init))
          (compileEvents t.reconfigure (env HookKind.reconfigure) ++
           (compileEvents t.run (env HookKind.run) ++
            compileEvents t.smoke_test (env HookKind.smokeTest)))
    | reconfigure =>
      simp only [HookTable.hookAt] at hp
      rw [hp]
      simpa [compileEvents, List.append_assoc] using
        List.infix_append
          (compileEvents t.file_updated (env HookKind.fileUpdated) ++
           (compileEvents t.health_check (env HookKind.healthCheck) ++
            compileEvents t.init (env HookKind.init)))
          (HookTable.compile_one p (env HookKind.reconfigure))
          (compileEvents t.run (env HookKind.run) ++
           compileEvents t.smoke_test (env HookKind.smokeTest))
    | run =>
      simp only [HookTable.hookAt] at hp
      rw [hp]
      simpa [compileEvents, List.append_assoc] using
        List.infix_append
          (compileEvents t.file_updated (env HookKind.fileUpdated) ++
           (compileEvents t.health_check (env HookKind.healthCheck) ++
            (compileEvents t.init (env HookKind.init) ++
             compileEvents t.reconfigure (env HookKind.reconfigure))))
          (HookTable.compile_one p (env HookKind.run))
          (compileEvents t.smoke_test (env HookKind.smokeTest))
    | smokeTest =>
      simp only [HookTable.hookAt] at hp
      rw [hp]
      simpa [compileEvents, List.append_assoc] using
        List.infix_append
          (compileEvents t.file_updated (env HookKind.fileUpdated) ++
           (compileEvents t.health_check (env HookKind.healthCheck) ++
            (compileEvents t.init (env HookKind.init) ++
             (compileEvents t.reconfigure (env HookKind.reconfigure) ++
              compileEvents t.run (env HookKind.run)))))
          (HookTable.compile_one p (env HookKind.smokeTest))
          []

/-- Witness for C3: a table with an init hook whose every compile step
fails and a run hook; at incarnation 3 the marker still advances to 3 and
the run hook's full compile trace occurs in the pass. -/
theorem C3_compile_pass_independence_witness :
    (tInitRun.compile 3 envInitFails).1.cfg_incarnation = 3 ∧
    HookTable.compile_one pairRun (envInitFails HookKind.run)
      <:+: (tInitRun.compile 3 envInitFails).2 :=
  ⟨(C3_compile_pass_independence tInitRun 3 envInitFails (by decide)).1,
   (C3_compile_pass_independence tInitRun 3 envInitFails (by decide)).2
     HookKind.run pairRun (by decide)⟩

/-- A loaded hook is present exactly when its template exists and its
render binding succeeds. -/
theorem hookLoad_isSome (k : HookKind) (fs : DiscoveryFs) (d : String) :
    (Hook.load k fs d).isSome = (fs.templateExists k && fs.bindOk k) := by
  unfold Hook.load
  cases fs.templateExists k <;> cases fs.bindOk k <;> simp

/-- Claim C8 (confirmed): discovery on an empty table creates a hook
instance exactly for the kinds whose template file exists and binds; a
bind failure leaves just that kind absent while the rest of the table is
still populated (the per-kind presence condition is independent across
kinds); and when the template directory is missing or not a directory
the whole table stays empty.  `load_hooks` is total, so discovery never
raises a fatal error. -/
theorem C8_discovery (fs : DiscoveryFs) (d : String) :
    (fs.templatesMeta ≠ some true →
      HookTable.load_hooks HookTable.default fs d = HookTable.default) ∧
    (fs.templatesMeta = some true →
      ∀ k, ((HookTable.load_hooks HookTable.default fs d).hookAt k).isSome
        = (fs.templateExists k && fs.bindOk k)) := by
  constructor
  · intro h
    cases hm : fs.templatesMeta with
    | none => simp [HookTable.load_hooks, hm]
    | some b =>
      cases b with
      | false => simp [HookTable.load_hooks, hm]
      | true => exact absurd hm h
  · intro h k
    cases k <;>
      simp [HookTable.load_hooks, h, HookTable.hookAt, hookLoad_isSome]

/-- Witness for C8: a missing template directory leaves the table empty;
with `fsMixed` the health_check hook (template present, bind succeeds) is
loaded while the init hook (template present, bind fails) stays absent. -/
theorem C8_discovery_witness :
    HookTable.load_hooks HookTable.default fsNoDir "svc" = HookTable.default ∧
    ((HookTable.load_hooks HookTable.default fsMixed "svc").hookAt
       HookKind.healthCheck).isSome = true ∧
    ((HookTable.load_hooks HookTable.default fsMixed "svc").hookAt
       HookKind.init).isSome = false :=
  ⟨(C8_discovery fsNoDir "svc").1 (by decide),
   by rw [(C8_discovery fsMixed "svc").2 rfl HookKind.healthCheck]; rfl,
   by rw [(C8_discovery fsMixed "svc").2 rfl HookKind.init]; rfl⟩

/-- Counterexample to claim C10 as stated: with toml serialisation and
template rendering succeeding but `File::create` failing, compilation
fails without any filesystem event — the previous destination file is
left untouched by a failure that is NOT a render failure, so "only a
render failure leaves the previous destination file untouched" is false. -/
theorem C10_counterexample :
    envCreateFail.renderOk = true ∧
    (Hook.compile pairInit envCreateFail).1 = false ∧
    (Hook.compile pairInit envCreateFail).2 = [] := by
  decide

/-- Claim C10 (corrected): `Hook::compile` is not atomic on its
destination.  The event trace is always a prefix of
create-write-chown-chmod, so the file is created (truncating prior
content) before text is written and before ownership and the 0755 mode
are set; a failure before file creation performs no filesystem event; a
write, chown or chmod failure after a successful render and create
leaves the file created (possibly truncated, partially written, or
without owner/mode) with compilation reported failed; and the
destination is left untouched exactly when a step at or before
`File::create` fails — a render (or toml) failure, or the creation
itself failing — not only on a render failure as originally stated. -/
theorem C10_compile_not_atomic (pair : RenderPair) (env : CompileEnv) :
    (Hook.compile pair env).2 <+:
      [FsEvent.create pair.path, FsEvent.write pair.path,
       FsEvent.chown pair.path, FsEvent.chmod pair.path] ∧
    (env.tomlOk = false ∨ env.renderOk = false →
      Hook.compile pair env = (false, [])) ∧
    (env.tomlOk = true → env.renderOk = true → env.createOk = true →
      (Hook.compile pair env).2.head? = some (FsEvent.create pair.path)) ∧
    (env.tomlOk = true → env.renderOk = true → env.createOk = true →
      env.writeOk = false ∨ env.chownOk = false ∨ env.chmodOk = false →
      (Hook.compile pair env).1 = false ∧
      FsEvent.create pair.path ∈ (Hook.compile pair env).2) ∧
    ((Hook.compile pair env).2 = [] ↔
      env.tomlOk = false ∨ env.renderOk = false ∨ env.createOk = false) := by
  obtain ⟨t, r, cr, w, ch, cm⟩ := env
  cases t <;> cases r <;> cases cr <;> cases w <;> cases ch <;> cases cm <;>
    simp [Hook.compile]

/-- Witness for C10: with everything succeeding except `set_owner`, the
destination is created (events begin with the create) yet compilation
fails; with a render failure nothing is written. -/
theorem C10_compile_not_atomic_witness :
    (Hook.compile pairInit
       { tomlOk := true, renderOk := true, createOk := true,
         writeOk := true, chownOk := false, chmodOk := true }).2.head?
      = some (FsEvent.create pairInit.path) ∧
    (Hook.compile pairInit
       { tomlOk := true, renderOk := true, createOk := true,
         writeOk := true, chownOk := false, chmodOk := true }).1 = false ∧
    FsEvent.create pairInit.path ∈
      (Hook.compile pairInit
       { tomlOk := true, renderOk := true, createOk := true,
         writeOk := true, chownOk := false, chmodOk := true }).2 ∧
    Hook.compile pairInit
       { tomlOk := true, renderOk := false, createOk := true,
         writeOk := true, chownOk := true, chmodOk := true } = (false, []) :=
  ⟨(C10_compile_not_atomic pairInit _).2.2.1 rfl rfl rfl,
   ((C10_compile_not_atomic pairInit _).2.2.2.1 rfl rfl rfl
      (Or.inr (Or.inl rfl))).1,
   ((C10_compile_not_atomic pairInit _).2.2.2.1 rfl rfl rfl
      (Or.inr (Or.inl rfl))).2,
   (C10_compile_not_atomic pairInit _).2.1 (Or.inr rfl)⟩
